import Mathlib

/-!
# Verification of the safe NDI wrapper core

A shallow embedding of the geometry/format math, the frame ownership guard,
the allocation protocol, the receiver `recv` slot discipline, the sender
async-send tracking and the name validation of the `rust-ndi-sdk` crate.

Conventions of the embedding:
* Rust functions that can panic are modelled with an `Option` result where
  `Option.none` denotes a panic/abort (assertion failure, `expect`, integer
  division by zero).  Fallible Rust functions returning `Result` are modelled
  with `Except`.
* `usize` values are modelled as `Nat`; the embedded arithmetic is exact at
  every point where the source arithmetic is guarded against overflow, and
  explicit wrapping (`as i32` casts) is modelled with `% 2^32` arithmetic.
* Raw pointers are modelled by the `Ptr` type below: all the wrapper logic
  ever does with a pointer is compare it against null and store it.
-/

/-- Model of a raw pointer: the wrapper only distinguishes null from
non-null and stores addresses opaquely. -/
inductive Ptr where
  | null
  | addr (a : Nat)
deriving DecidableEq, Repr

namespace Ptr

def is_null : Ptr → Bool
  | .null => true
  | .addr _ => false

end Ptr

/-! ## FourCC codes (`src/four_cc.rs`)

The numeric discriminants of `FourCCVideo`/`FourCCAudio` come from the
generated `bindings` module, which is produced at build time from the
external NDI SDK header and is not part of the sources.  Modelled from the
spec: a FourCC is "a compact numeric identifier" formed from four ASCII
characters; the crate's own `FourCC::to_string` test (`FourCC(RGBA)` prints
as `"RGBA"` via `to_le_bytes`) pins the little-endian ASCII encoding
`a + b·2⁸ + c·2¹⁶ + d·2²⁴`. -/
def fourCCCode (a b c d : Nat) : Int :=
  Int.ofNat (a + b * 256 + c * 65536 + d * 16777216)

/-- Possible FourCC values for video frames (`FourCCVideo`). -/
inductive FourCCVideo where
  | UYVY
  | UYVA
  | P216
  | PA16
  | YV12
  | I420
  | NV12
  | RGBA
  | RGBX
  | BGRA
  | BGRX
deriving DecidableEq, Repr

namespace FourCCVideo

/-- `FourCCVideo::to_ffi` (the `#[repr(i32)]` discriminant). -/
def to_ffi : FourCCVideo → Int
  | UYVY => fourCCCode 85 89 86 89
  | UYVA => fourCCCode 85 89 86 65
  | P216 => fourCCCode 80 50 49 54
  | PA16 => fourCCCode 80 65 49 54
  | YV12 => fourCCCode 89 86 49 50
  | I420 => fourCCCode 73 52 50 48
  | NV12 => fourCCCode 78 86 49 50
  | RGBA => fourCCCode 82 71 66 65
  | RGBX => fourCCCode 82 71 66 88
  | BGRA => fourCCCode 66 71 82 65
  | BGRX => fourCCCode 66 71 82 88

/-- `FourCCVideo::from_ffi` (via `try_from_primitive`: succeeds exactly on a
declared discriminant). -/
def from_ffi (value : Int) : Option FourCCVideo :=
  if value = UYVY.to_ffi then some UYVY
  else if value = UYVA.to_ffi then some UYVA
  else if value = P216.to_ffi then some P216
  else if value = PA16.to_ffi then some PA16
  else if value = YV12.to_ffi then some YV12
  else if value = I420.to_ffi then some I420
  else if value = NV12.to_ffi then some NV12
  else if value = RGBA.to_ffi then some RGBA
  else if value = RGBX.to_ffi then some RGBX
  else if value = BGRA.to_ffi then some BGRA
  else if value = BGRX.to_ffi then some BGRX
  else none

end FourCCVideo

/-- Possible FourCC values for audio frames (`FourCCAudio`). -/
inductive FourCCAudio where
  | FLTP
deriving DecidableEq, Repr

namespace FourCCAudio

/-- `FourCCAudio::to_ffi`. -/
def to_ffi : FourCCAudio → Int
  | FLTP => fourCCCode 70 76 84 80

/-- `FourCCAudio::from_ffi`. -/
def from_ffi (value : Int) : Option FourCCAudio :=
  if value = FLTP.to_ffi then some FLTP else none

end FourCCAudio

/-! ## Field modes (`src/enums.rs`, `NDIFieldedFrameMode`) -/

/-- `NDIFieldedFrameMode`. -/
inductive NDIFieldedFrameMode where
  | Progressive
  | Interleaved
  | Field0
  | Field1
deriving DecidableEq, Repr

namespace NDIFieldedFrameMode

/-- The `NDIlib_frame_format_type_e` discriminants come from the generated
bindings (external SDK header).  Modelled from the spec: four distinct
integer codes; the concrete values are irrelevant to every claim, only
their distinctness is used. -/
def to_ffi : NDIFieldedFrameMode → Int
  | Progressive => 1
  | Interleaved => 0
  | Field0 => 2
  | Field1 => 3

/-- `NDIFieldedFrameMode::from_ffi` via `try_from_primitive`. -/
def from_ffi (value : Int) : Option NDIFieldedFrameMode :=
  if value = Progressive.to_ffi then some Progressive
  else if value = Interleaved.to_ffi then some Interleaved
  else if value = Field0.to_ffi then some Field0
  else if value = Field1.to_ffi then some Field1
  else none

/-- `NDIFieldedFrameMode::is_progressive`. -/
def is_progressive : NDIFieldedFrameMode → Bool
  | Progressive => true
  | _ => false

/-- `NDIFieldedFrameMode::is_single_field`. -/
def is_single_field : NDIFieldedFrameMode → Bool
  | Field0 => true
  | Field1 => true
  | _ => false

end NDIFieldedFrameMode

/-! ## Resolution (`src/structs/resolution.rs`) -/

/-- `Resolution { x: usize, y: usize }`. -/
structure Resolution where
  x : Nat
  y : Nat
deriving DecidableEq, Repr

namespace Resolution

/-- `i32::MAX as usize`. -/
def MAX_SAFE_VALUE : Nat := 2147483647

/-- 4 components x 16 bit. -/
def MAX_PIXEL_BYTES : Nat := 8

def MAX_SAFE_PIXELS : Nat := MAX_SAFE_VALUE / MAX_PIXEL_BYTES

/-- `Resolution::is_safe`.  `usize::checked_mul` is modelled by the explicit
`< 2^64` guard: it returns `None` exactly when the product overflows. -/
def is_safe (r : Resolution) : Bool :=
  if r.x = 0 || r.y = 0 then false
  else if r.x &&& 1 ≠ 0 then false
  else if MAX_SAFE_VALUE ≤ r.x || MAX_SAFE_VALUE ≤ r.y then false
  else if r.x * r.y < 18446744073709551616 then
    decide (r.x * r.y < MAX_SAFE_PIXELS)
  else false

/-- `Resolution::new`: asserts `is_safe`, i.e. panics (`Option.none`) on an
unsafe resolution. -/
def new (x y : Nat) : Option Resolution :=
  let res : Resolution := ⟨x, y⟩
  if res.is_safe then some res else none

/-- `Resolution::from_i32`: `try_into::<usize>()` panics on a negative
component, then asserts `is_safe`. -/
def from_i32 (x y : Int) : Option Resolution :=
  if x < 0 || y < 0 then none
  else
    let res : Resolution := ⟨x.toNat, y.toNat⟩
    if res.is_safe then some res else none

/-- `Resolution::to_i32` (`as i32` wrapping casts, two's complement). -/
def usizeToI32 (n : Nat) : Int :=
  let m := n % 4294967296
  if m < 2147483648 then Int.ofNat m else Int.ofNat m - 4294967296

def to_i32 (r : Resolution) : Int × Int :=
  (usizeToI32 r.x, usizeToI32 r.y)

/-- `Resolution::pixels`. -/
def pixels (r : Resolution) : Nat := r.x * r.y

end Resolution

/-! ## Subsampling (`src/structs/subsampling.rs`) -/

/-- `Subsampling { x_ref, x_samples, x2_samples : u8 }`. -/
structure Subsampling where
  x_ref : Nat
  x_samples : Nat
  x2_samples : Nat
deriving DecidableEq, Repr

namespace Subsampling

/-- `Subsampling::new`. -/
def new (x_ref x_samples x2_samples : Nat) : Subsampling :=
  ⟨x_ref, x_samples, x2_samples⟩

/-- `Subsampling::none` (4:4:4). -/
def none : Subsampling := ⟨4, 4, 4⟩

/-- `Subsampling::is_regular`.  Rust `u8 % 0` panics, hence the explicit
`x_samples = 0` branch yielding `Option.none` (a panic): control reaches the
`x_ref % x_samples` expression with a zero divisor exactly there. -/
def is_regular (s : Subsampling) : Option Bool :=
  if s.x_ref = 0 then some false
  else if s.x_samples > s.x_ref || s.x2_samples > s.x_samples then some false
  else if s.x_samples = 0 then Option.none
  else if s.x_ref % s.x_samples ≠ 0 then some false
  else if s.x2_samples % s.x_samples ≠ 0 then some false
  else some true

/-- `Subsampling::x_grouping`: asserts `is_regular` (panic on `false` and on
a panicking `is_regular`). -/
def x_grouping (s : Subsampling) : Option Nat :=
  match s.is_regular with
  | some true => some (s.x_ref / s.x_samples)
  | _ => Option.none

/-- `Subsampling::y_grouping`: asserts `is_regular`, then matches the
second-line sample count; the final `panic!` branch is `Option.none`. -/
def y_grouping (s : Subsampling) : Option Nat :=
  match s.is_regular with
  | some true =>
    if s.x2_samples = 0 then some 2
    else if s.x_samples = s.x2_samples then some 1
    else Option.none
  | _ => Option.none

end Subsampling

/-! ## BufferInfo (`src/structs/buffer_info.rs`) -/

/-- `BufferInfo`. -/
structure BufferInfo where
  size : Nat
  line_stride : Nat
  resolution : Resolution
  field_mode : NDIFieldedFrameMode
  subsampling : Subsampling
deriving DecidableEq, Repr

/-- `BufferInfoError`. -/
inductive BufferInfoError where
  | UnsupportedFourCC (cc : FourCCVideo)
  | UnspecifiedFourCC
deriving DecidableEq, Repr

namespace FourCCVideo

/-- `FourCCVideo::buffer_info`: per-format pixel stride and subsampling,
`size = pixels · stride` (halved for a single field),
`line_stride = width · stride`. -/
def buffer_info (cc : FourCCVideo) (resolution : Resolution)
    (field_mode : NDIFieldedFrameMode) : Except BufferInfoError BufferInfo :=
  match
    (match cc with
     | UYVY => some (2, Subsampling.new 4 2 2)
     | BGRA | BGRX | RGBA | RGBX => some (4, Subsampling.none)
     | _ => Option.none) with
  | Option.none => .error (.UnsupportedFourCC cc)
  | some (pixel_stride, subsampling) =>
    let size := resolution.pixels * pixel_stride
    .ok {
      size := if field_mode.is_single_field then size / 2 else size
      line_stride := resolution.x * pixel_stride
      resolution := resolution
      field_mode := field_mode
      subsampling := subsampling
    }

end FourCCVideo

example : (FourCCVideo.RGBX.buffer_info ⟨1920, 1080⟩ .Progressive).map
    (fun i => (i.size, i.line_stride)) = .ok (1920 * 1080 * 4, 1920 * 4) := by
  rfl

example : (FourCCVideo.UYVY.buffer_info ⟨8, 4⟩ .Field0).map
    (fun i => i.size) = .ok 32 := by rfl

/-! ## Frame ownership guard (`src/frame/drop_guard.rs`) -/

/-- `FrameDataDropGuard`: who owns a frame's backing memory.  `Arc<RawReceiver>`
and `Arc<RawSender>` are modelled by a numeric handle id; the `Option` inside
`Receiver`/`Sender` mirrors the source (`None` after the buffer was taken).
`Box<[u8]>` is the byte buffer itself and `CString` an owned text buffer. -/
inductive FrameDataDropGuard where
  | NullPtr
  | Receiver (recv : Option Nat)
  | Sender (sender : Option Nat)
  | Box (data : List Nat)
  | CString (s : List Nat)
deriving DecidableEq, Repr

namespace FrameDataDropGuard

/-- `FrameDataDropGuard::new_boxed`: a zeroed buffer of `size` bytes plus its
(non-null) data pointer.  The concrete address is irrelevant to the wrapper,
so the model uses `addr 0`. -/
def new_boxed (size : Nat) : FrameDataDropGuard × Ptr :=
  (FrameDataDropGuard.Box (List.replicate size 0), Ptr.addr 0)

/-- `FrameDataDropGuard::is_ffi_writable`. -/
def is_ffi_writable : FrameDataDropGuard → Bool
  | NullPtr => true
  | _ => false

/-- `FrameDataDropGuard::is_ffi_readable`. -/
def is_ffi_readable (g : FrameDataDropGuard) : Bool :=
  !(match g with | NullPtr => true | _ => false)

/-- `FrameDataDropGuard::is_allocated`. -/
def is_allocated (g : FrameDataDropGuard) : Bool :=
  !(match g with | NullPtr => true | _ => false)

/-- `FrameDataDropGuard::is_from_sdk`. -/
def is_from_sdk : FrameDataDropGuard → Bool
  | Receiver _ => true
  | Sender _ => true
  | _ => false

/-- `FrameDataDropGuard::is_mut`. -/
def is_mut : FrameDataDropGuard → Bool
  | Box _ => true
  | CString _ => true
  | _ => false

/-- `FrameDataDropGuard::update_from_receiver` (receiver takes ownership). -/
def update_from_receiver (_g : FrameDataDropGuard) (recv : Nat) : FrameDataDropGuard :=
  Receiver (some recv)

end FrameDataDropGuard

/-! ## Video frames (`src/frame/video.rs`, `src/frame/generic.rs`) -/

/-- `NDIlib_video_frame_v2_t` (the raw per-kind descriptor).  The `f32`
`picture_aspect_ratio` is modelled opaquely (the embedded operations only
ever store the zero literal into it or leave it untouched), with `0`
standing for the literal `0.0`. -/
structure NDIRawVideoFrame where
  xres : Int
  yres : Int
  FourCC : Int
  frame_rate_N : Int
  frame_rate_D : Int
  picture_aspect_ratio : Int
  frame_format_type : Int
  timecode : Int
  p_metadata : Ptr
  p_data : Ptr
  line_stride_in_bytes : Int
  timestamp : Int
deriving DecidableEq, Repr

/-- `NDIlib_send_timecode_synthesize` (`i64::MAX` in the SDK header). -/
def NDIlib_send_timecode_synthesize : Int := 9223372036854775807

/-- `NDIFrame<NDIRawVideoFrame>` = `VideoFrame`: raw descriptor plus
ownership guard. -/
structure VideoFrame where
  raw : NDIRawVideoFrame
  alloc : FrameDataDropGuard
deriving DecidableEq, Repr

/-- `VideoFrameAllocationError`. -/
inductive VideoFrameAllocationError where
  | AlreadyAllocated
  | BufferInfoError (err : BufferInfoError)
deriving DecidableEq, Repr

/-- `VideoFrameAccessError`. -/
inductive VideoFrameAccessError where
  | NotAllocated
  | Readonly
  | BufferInfoError (err : BufferInfoError)
deriving DecidableEq, Repr

namespace VideoFrame

/-- `VideoFrame::new`: empty frame, 0x0, UYVY, progressive, no buffers. -/
def new : VideoFrame :=
  { raw := {
      xres := 0
      yres := 0
      FourCC := FourCCVideo.UYVY.to_ffi
      frame_rate_N := 30000
      frame_rate_D := 1001
      picture_aspect_ratio := 0
      frame_format_type := NDIFieldedFrameMode.Progressive.to_ffi
      timecode := NDIlib_send_timecode_synthesize
      p_metadata := Ptr.null
      p_data := Ptr.null
      line_stride_in_bytes := 0
      timestamp := 0 }
    alloc := FrameDataDropGuard.NullPtr }

/-- `NDIFrame::is_ffi_writable`. -/
def is_ffi_writable (f : VideoFrame) : Bool := f.alloc.is_ffi_writable

/-- `NDIFrame::is_ffi_readable`. -/
def is_ffi_readable (f : VideoFrame) : Bool := f.alloc.is_ffi_readable

/-- `NDIFrame::is_allocated`. -/
def is_allocated (f : VideoFrame) : Bool := f.alloc.is_allocated

/-- `VideoFrame::four_cc`. -/
def four_cc (f : VideoFrame) : Option FourCCVideo :=
  FourCCVideo.from_ffi f.raw.FourCC

/-- `VideoFrame::resolution`: `Resolution::from_i32` panics (`Option.none`)
on a negative or unsafe stored resolution. -/
def resolution (f : VideoFrame) : Option Resolution :=
  Resolution.from_i32 f.raw.xres f.raw.yres

/-- `VideoFrame::field_mode`: `expect` panics on an invalid stored mode. -/
def field_mode (f : VideoFrame) : Option NDIFieldedFrameMode :=
  NDIFieldedFrameMode.from_ffi f.raw.frame_format_type

/-- `VideoFrame::buffer_info`.  In the source the call is
`cc.buffer_info(self.resolution(), self.field_mode())`: the argument
expressions run (and can panic) before `FourCCVideo::buffer_info` does, but
only after `four_cc()` returned `Some`. -/
def buffer_info (f : VideoFrame) : Option (Except BufferInfoError BufferInfo) :=
  match f.four_cc with
  | Option.none => some (.error .UnspecifiedFourCC)
  | some cc =>
    match f.resolution with
    | Option.none => Option.none
    | some r =>
      match f.field_mode with
      | Option.none => Option.none
      | some fm => some (cc.buffer_info r fm)

/-- `VideoFrame::try_alloc`.  The outer `Option` is panic (only reachable
through `buffer_info`'s resolution/field-mode asserts); the `Except` error
leaves the frame unchanged, success installs the boxed buffer, the data
pointer and the computed line stride (`as i32` wrapping cast). -/
def try_alloc (f : VideoFrame) :
    Option (Except VideoFrameAllocationError Unit × VideoFrame) :=
  if f.is_allocated then some (.error .AlreadyAllocated, f)
  else
    match f.buffer_info with
    | Option.none => Option.none
    | some (.error err) => some (.error (.BufferInfoError err), f)
    | some (.ok info) =>
      let (alloc, ptr) := FrameDataDropGuard.new_boxed info.size
      some (.ok (), { f with
        alloc := alloc
        raw := { f.raw with
          p_data := ptr
          line_stride_in_bytes := Resolution.usizeToI32 info.line_stride } })

/-- `FrameDataDropGuard::drop_buffer` specialised to video frames: frees a
receiver-owned buffer through the receiver handle (a native call with no
observable effect on the wrapper state), panics for a sender-owned video
frame (`NDIRawVideoFrame::drop_with_sender` is `panic!`), and resets the
guard to `NullPtr`. -/
def drop_buffer (f : VideoFrame) : Option VideoFrame :=
  match f.alloc with
  | FrameDataDropGuard.Sender (some _) => Option.none
  | _ => some { f with alloc := FrameDataDropGuard.NullPtr }

/-- `VideoFrame::dealloc`: drop the buffer, null the data pointer, poison the
stride with `-1`, and clear the metadata pointer when the SDK owned it. -/
def dealloc (f : VideoFrame) : Option VideoFrame :=
  let drops_metadata := f.alloc.is_from_sdk
  match f.drop_buffer with
  | Option.none => Option.none
  | some f1 =>
    some { f1 with raw := { f1.raw with
      p_data := Ptr.null
      line_stride_in_bytes := -1
      p_metadata := if drops_metadata then Ptr.null else f1.raw.p_metadata } }

/-- `VideoFrame::set_resolution`: fails (`Except.error`) once allocated,
otherwise stores the resolution and resets the aspect ratio to `0.0`. -/
def set_resolution (f : VideoFrame) (resolution : Resolution) :
    Except Unit VideoFrame :=
  if f.is_allocated then .error ()
  else
    .ok { f with raw := { f.raw with
      xres := (Resolution.to_i32 resolution).1
      yres := (Resolution.to_i32 resolution).2
      picture_aspect_ratio := 0 } }

/-- `VideoFrame::set_four_cc`: fails once allocated. -/
def set_four_cc (f : VideoFrame) (four_cc : FourCCVideo) :
    Except Unit VideoFrame :=
  if f.is_allocated then .error ()
  else .ok { f with raw := { f.raw with FourCC := four_cc.to_ffi } }

end VideoFrame

/-! ## Source / sender name validation (`src/util.rs`, `src/sender.rs`) -/

/-- `SourceNameError` (`NulError` carries position data that the claims never
inspect, so it is modelled as a bare constructor). -/
inductive SourceNameError where
  | NulError
  | TooLong
deriving DecidableEq, Repr

/-- `validate_source_name` over the UTF-8 bytes of the input:
`CString::new` fails on any interior zero byte, then the byte count
(excluding the appended terminator) is checked against 253.
`NDISenderBuilder::name` performs the identical checks. -/
def validate_source_name (name : List Nat) : Except SourceNameError (List Nat) :=
  if name.contains 0 then .error .NulError
  else if 253 ≤ name.length then .error .TooLong
  else .ok name

/-! ## Receiver `recv` slot discipline (`src/receiver.rs`)

The model follows the strict/debug configuration (`debug_assertions` or the
`strict_assertions` feature): the claims are about that mode.  The native
`NDIlib_recv_capture_v3` call is the environment: the model takes as inputs
the discriminant it returns and, for each provided slot, whether the native
layer wrote data into that slot's raw frame (its `p_data`/`p_metadata`
became non-null).  A slot is the `FrameDataDropGuard` of the caller's frame;
`Option.none` at the outer level is a panic/abort. -/

/-- The `NDIlib_frame_type_e` discriminant returned by the native capture
call.  The named constructors stand for the distinct header constants
matched in the source; `other` is any unrecognized value. -/
inductive NativeFrameType where
  | video
  | audio
  | metadata
  | status_change
  | source_change
  | noFrame
  | other (code : Int)
deriving DecidableEq, Repr

/-- `NDIRecvError` (strict mode): an unrecognized discriminant. -/
inductive NDIRecvError where
  | UnknownType
deriving DecidableEq, Repr

/-- `NDIRecvType`. -/
inductive NDIRecvType where
  | Video
  | Audio
  | Metadata
  | None
  | Unknown
  | StatusChange
  | SourceChange
deriving DecidableEq, Repr

namespace NDIReceiver

/-- `AsFFIWritable::to_ffi_recv_frame_ptr` in strict mode: a missing slot
yields a null pointer, a provided non-writable slot panics. -/
def to_ffi_recv_frame_ptr (slot : Option FrameDataDropGuard) :
    Option (Option FrameDataDropGuard) :=
  match slot with
  | Option.none => some Option.none
  | some g => if g.is_ffi_writable then some (some g) else Option.none

/-- `NDIFrame::assert_unwritten` over a provided slot, as a `Bool`
(`false` = the strict assertion fires): the raw frame must still be unwritten
and the guard still FFI-writable. -/
def slot_unwritten (slot : Option FrameDataDropGuard) (written : Bool) : Bool :=
  match slot with
  | Option.none => true
  | some g => !written && g.is_ffi_writable

/-- The result of `NDIReceiver::recv`: the receive type (or error) plus the
three slots as left behind by the call. -/
structure RecvOutcome where
  result : Except NDIRecvError NDIRecvType
  video : Option FrameDataDropGuard
  audio : Option FrameDataDropGuard
  meta : Option FrameDataDropGuard
deriving Repr

/-- `NDIReceiver::recv` (strict/debug mode), for a receiver whose shared
handle is modelled by id `handle`.  `vW`/`aW`/`mW` say whether the native
call wrote into the corresponding provided raw frame. -/
def recv (handle : Nat)
    (video audio meta : Option FrameDataDropGuard)
    (disc : NativeFrameType) (vW aW mW : Bool) : Option RecvOutcome :=
  match to_ffi_recv_frame_ptr video, to_ffi_recv_frame_ptr audio,
      to_ffi_recv_frame_ptr meta with
  | some video, some audio, some meta =>
    match disc with
    | .video =>
      match video with
      | Option.none => Option.none
      | some g =>
        if slot_unwritten audio aW && slot_unwritten meta mW then
          some ⟨.ok .Video, some (g.update_from_receiver handle), audio, meta⟩
        else Option.none
    | .audio =>
      match audio with
      | Option.none => Option.none
      | some g =>
        if slot_unwritten video vW && slot_unwritten meta mW then
          some ⟨.ok .Audio, video, some (g.update_from_receiver handle), meta⟩
        else Option.none
    | .metadata =>
      match meta with
      | Option.none => Option.none
      | some g =>
        if slot_unwritten video vW && slot_unwritten audio aW then
          some ⟨.ok .Metadata, video, audio, some (g.update_from_receiver handle)⟩
        else Option.none
    | .status_change =>
      if slot_unwritten video vW && slot_unwritten audio aW
          && slot_unwritten meta mW then
        some ⟨.ok .StatusChange, video, audio, meta⟩
      else Option.none
    | .source_change =>
      if slot_unwritten video vW && slot_unwritten audio aW
          && slot_unwritten meta mW then
        some ⟨.ok .SourceChange, video, audio, meta⟩
      else Option.none
    | .noFrame =>
      if slot_unwritten video vW && slot_unwritten audio aW
          && slot_unwritten meta mW then
        some ⟨.ok .None, video, audio, meta⟩
      else Option.none
    | .other _ =>
      if slot_unwritten video vW && slot_unwritten audio aW
          && slot_unwritten meta mW then
        some ⟨.error .UnknownType, video, audio, meta⟩
      else Option.none
  | _, _, _ => Option.none

end NDIReceiver

/-! ## Sender async-send tracking (`src/sender.rs`)

The observable behaviour is modelled as an event trace: native send calls
and releases of the tracked `Arc<VideoFrame>` reference, in program order.
A frame handed to `send_video_async` is an `Arc<VideoFrame>`, modelled by a
numeric id plus its ownership guard (readability is all the sender checks). -/

/-- One observable step of the sender protocol. -/
inductive SenderEvent where
  | nativeSendSyncVideo (id : Nat)
  | nativeSendAsyncVideo (frame : Option Nat)
  | releaseRef (id : Nat)
deriving DecidableEq, Repr

/-- `SendFrameError`. -/
inductive SendFrameError where
  | NotSendable
deriving DecidableEq, Repr

/-- The sender's one piece of mutable state: the
`Mutex<Option<Arc<VideoFrame>>>` slot tracking the frame currently in async
transmission (by id). -/
structure NDISender where
  in_transmission : Option Nat
deriving DecidableEq, Repr

namespace NDISender

/-- `NDISender::write_in_transmission`: store the new tracked reference;
dropping the previous `Arc` (if any) releases that reference.  Lock
poisoning is cleared and the write still happens, so the state transition is
the same on both `lock` branches. -/
def write_in_transmission (s : NDISender) (frame : Option Nat) :
    NDISender × List SenderEvent :=
  (⟨frame⟩,
    match s.in_transmission with
    | some old => [SenderEvent.releaseRef old]
    | Option.none => [])

/-- `NDISender::send_video_async`: checks readability, issues the native
async send, then (and only then) replaces the tracked reference. -/
def send_video_async (s : NDISender) (id : Nat) (alloc : FrameDataDropGuard) :
    Except SendFrameError (NDISender × List SenderEvent) :=
  if alloc.is_ffi_readable then
    let (s1, drops) := s.write_in_transmission (some id)
    .ok (s1, SenderEvent.nativeSendAsyncVideo (some id) :: drops)
  else .error .NotSendable

/-- `NDISender::flush_async_video`: native flush (async send of a null
frame), then the tracked reference is released. -/
def flush_async_video (s : NDISender) : NDISender × List SenderEvent :=
  let (s1, drops) := s.write_in_transmission Option.none
  (s1, SenderEvent.nativeSendAsyncVideo Option.none :: drops)

/-- `NDISender::send_video_sync`: blocking native send, then the tracked
async reference is cleared. -/
def send_video_sync (s : NDISender) (id : Nat) (alloc : FrameDataDropGuard) :
    Except SendFrameError (NDISender × List SenderEvent) :=
  if alloc.is_ffi_readable then
    let (s1, drops) := s.write_in_transmission Option.none
    .ok (s1, SenderEvent.nativeSendSyncVideo id :: drops)
  else .error .NotSendable

/-- `impl Drop for NDISender`: dropping the sender first flushes the
in-flight async video. -/
def drop_sender (s : NDISender) : NDISender × List SenderEvent :=
  s.flush_async_video

end NDISender

/-- `i32 as usize` (sign extension then reinterpretation, 64-bit target). -/
def i32ToUsize (i : Int) : Nat :=
  (i % 18446744073709551616).toNat

/-- `VideoFrame::video_data` (read access): `NotAllocated` for a frame
without backing memory, then the freshly recomputed `BufferInfo`; the stride
assertion against the stored descriptor stride and the non-null data
assertion are fatal (`Option.none`).  The returned slice is represented by
its `BufferInfo` (its length is `info.size`). -/
def VideoFrame.video_data (f : VideoFrame) :
    Option (Except VideoFrameAccessError BufferInfo) :=
  if f.is_allocated = false then some (.error .NotAllocated)
  else
    match f.buffer_info with
    | Option.none => Option.none
    | some (.error err) => some (.error (.BufferInfoError err))
    | some (.ok info) =>
      if info.line_stride ≠ i32ToUsize f.raw.line_stride_in_bytes then
        Option.none
      else if f.raw.p_data.is_null then Option.none
      else some (.ok info)

/-- `VideoFrame::video_data_mut`: as `video_data`, but additionally requires
a locally-owned (mutable) buffer. -/
def VideoFrame.video_data_mut (f : VideoFrame) :
    Option (Except VideoFrameAccessError BufferInfo) :=
  if f.is_allocated = false then some (.error .NotAllocated)
  else if f.alloc.is_mut = false then some (.error .Readonly)
  else
    match f.buffer_info with
    | Option.none => Option.none
    | some (.error err) => some (.error (.BufferInfoError err))
    | some (.ok info) =>
      if info.line_stride ≠ i32ToUsize f.raw.line_stride_in_bytes then
        Option.none
      else if f.raw.p_data.is_null then Option.none
      else some (.ok info)

/-! ## Concrete frames used by the witnesses -/

/-- An empty 2x2 RGBX progressive video frame. -/
def demoEmpty : VideoFrame :=
  { VideoFrame.new with
    raw := { VideoFrame.new.raw with
      xres := 2
      yres := 2
      FourCC := FourCCVideo.RGBX.to_ffi } }

/-- `demoEmpty` after a successful allocation (16-byte buffer, stride 8). -/
def demoAllocated : VideoFrame :=
  { demoEmpty with
    alloc := FrameDataDropGuard.Box (List.replicate 16 0)
    raw := { demoEmpty.raw with
      p_data := Ptr.addr 0
      line_stride_in_bytes := 8 } }

/-- `demoAllocated` after `dealloc` (buffer gone, stride poisoned). -/
def demoDeallocated : VideoFrame :=
  { demoEmpty with
    raw := { demoEmpty.raw with line_stride_in_bytes := -1 } }

/-- An empty 2x2 frame with the (layout-unsupported) UYVA format. -/
def demoUYVA : VideoFrame :=
  { demoEmpty with
    raw := { demoEmpty.raw with FourCC := FourCCVideo.UYVA.to_ffi } }

/-- An empty 2x2 frame whose descriptor holds the unrecognized code `0`. -/
def demoNoFourCC : VideoFrame :=
  { demoEmpty with raw := { demoEmpty.raw with FourCC := 0 } }

/-! ## Theorems -/

/-- Characterization of `Resolution::is_safe`. -/
theorem Resolution.is_safe_iff (r : Resolution) :
    r.is_safe = true ↔
      0 < r.x ∧ 0 < r.y ∧ r.x % 2 = 0 ∧ r.x < Resolution.MAX_SAFE_VALUE ∧
      r.y < Resolution.MAX_SAFE_VALUE ∧ r.x * r.y < Resolution.MAX_SAFE_PIXELS := by
  unfold Resolution.is_safe
  rw [Nat.and_one_is_mod]
  simp only [Resolution.MAX_SAFE_VALUE, Resolution.MAX_SAFE_PIXELS,
    Resolution.MAX_PIXEL_BYTES, Bool.or_eq_true, decide_eq_true_eq, ne_eq]
  split_ifs with h1 h2 h3 h4 <;> simp_all <;> omega

/-- C4: for every pair `(width, height)` with even positive width, positive
height and `width·height·8 < 2^31`, `Resolution` construction succeeds (the
`is_safe` assert does not fire) and `is_safe` holds; and `is_safe` is
`false` whenever a dimension is zero, the width is odd, or the byte bound
`width·height·8 < 2^31` is violated. -/
theorem resolution_validity :
    (∀ w h : Nat, w % 2 = 0 → 0 < w → 0 < h → w * h * 8 < 2147483648 →
      Resolution.new w h = some ⟨w, h⟩ ∧ (Resolution.mk w h).is_safe = true) ∧
    (∀ w h : Nat, (w = 0 ∨ h = 0 ∨ w % 2 = 1 ∨ 2147483648 ≤ w * h * 8) →
      (Resolution.mk w h).is_safe = false) := by
  constructor
  · intro w h heven hw hh hbound
    have hxle : w ≤ w * h := Nat.le_mul_of_pos_right w hh
    have hyle : h ≤ w * h := Nat.le_mul_of_pos_left h hw
    have hpe : (w * h) % 2 = 0 := by
      rw [Nat.mul_mod, heven]
      simp
    have hsafe : (Resolution.mk w h).is_safe = true := by
      rw [Resolution.is_safe_iff]
      refine ⟨hw, hh, heven, ?_, ?_, ?_⟩ <;>
        simp only [Resolution.MAX_SAFE_VALUE, Resolution.MAX_SAFE_PIXELS,
          Resolution.MAX_PIXEL_BYTES] <;> omega
    exact ⟨by simp [Resolution.new, hsafe], hsafe⟩
  · intro w h hbad
    rw [← Bool.not_eq_true, Resolution.is_safe_iff]
    simp only [Resolution.MAX_SAFE_VALUE, Resolution.MAX_SAFE_PIXELS,
      Resolution.MAX_PIXEL_BYTES]
    intro hc
    omega

/-- Witness for `resolution_validity` at 1920x1080 and at a zero width. -/
theorem resolution_validity_witness :
    (Resolution.new 1920 1080 = some ⟨1920, 1080⟩ ∧
      (Resolution.mk 1920 1080).is_safe = true) ∧
    (Resolution.mk 0 1080).is_safe = false :=
  ⟨resolution_validity.1 1920 1080 (by decide) (by decide) (by decide) (by decide),
   resolution_validity.2 0 1080 (Or.inl rfl)⟩

/-- C8: `from_ffi ∘ to_ffi` is the identity on every defined video and audio
FourCC variant, and the two numeric code spaces are disjoint: no video code
parses as an audio FourCC and no audio code parses as a video FourCC. -/
theorem four_cc_round_trip :
    (∀ v : FourCCVideo, FourCCVideo.from_ffi v.to_ffi = some v) ∧
    (∀ a : FourCCAudio, FourCCAudio.from_ffi a.to_ffi = some a) ∧
    (∀ v : FourCCVideo, FourCCAudio.from_ffi v.to_ffi = Option.none) ∧
    (∀ a : FourCCAudio, FourCCVideo.from_ffi a.to_ffi = Option.none) := by
  refine ⟨?_, ?_, ?_, ?_⟩ <;> intro x <;> cases x <;> rfl

set_option maxRecDepth 8192 in
/-- C6 counterexample: a name of exactly 253 characters is rejected with
`TooLong` (the source checks `count_bytes() >= 253`), while the claim says
such a name is accepted.  The input is 253 repetitions of the byte `97`
(`'a'`). -/
theorem source_name_253_rejected :
    validate_source_name (List.replicate 253 97) = .error .TooLong ∧
    validate_source_name (List.replicate 253 97) ≠ .ok (List.replicate 253 97) := by
  have h : validate_source_name (List.replicate 253 97) = .error .TooLong := rfl
  refine ⟨h, ?_⟩
  rw [h]
  exact fun hcontra => Except.noConfusion hcontra

/-- C6 (amended): name construction fails with the null-byte error iff the
input contains a `0` byte (this check runs first); otherwise it fails with
`TooLong` iff the byte length is at least 253 — so the longest accepted name
has 252 bytes, not 253 — and otherwise the name is returned unmodified. -/
theorem source_name_validation :
    ∀ name : List Nat,
      (validate_source_name name = .error .NulError ↔ name.contains 0 = true) ∧
      (validate_source_name name = .error .TooLong ↔
        (name.contains 0 = false ∧ 253 ≤ name.length)) ∧
      (name.contains 0 = false → name.length < 253 →
        validate_source_name name = .ok name) := by
  intro name
  unfold validate_source_name
  split_ifs with h1 h2 <;> simp_all <;> omega

/-- Witness for `source_name_validation`: the two-byte name `[104, 105]`
("hi") is accepted unmodified. -/
theorem source_name_validation_witness :
    validate_source_name [104, 105] = .ok [104, 105] :=
  (source_name_validation [104, 105]).2.2 (by decide) (by decide)

/-- C9 counterexample: `is_regular` on the descriptor `4:0:0` reaches
`x_ref % x_samples` with a zero divisor — a `u8` division-by-zero panic,
modelled as `Option.none` — so it does not "return a boolean without
panicking" for every descriptor. -/
theorem is_regular_4_0_0_panics :
    (Subsampling.mk 4 0 0).is_regular = Option.none := rfl

/-- C9 (amended): `is_regular` returns a boolean without panicking for every
descriptor except those with `x_ref ≠ 0`, `x_samples = 0` and
`x2_samples = 0` (where it divides by zero); and whenever `is_regular`
returns `true`, `x_grouping` returns `x_ref / x_samples` and `y_grouping`
returns 2 if the second-line sample count is zero and 1 otherwise, neither
reaching a panic branch. -/
theorem Subsampling.is_regular_eq_some_true (s : Subsampling) :
    s.is_regular = some true ↔
      s.x_ref ≠ 0 ∧ s.x_samples ≤ s.x_ref ∧ s.x2_samples ≤ s.x_samples ∧
      s.x_samples ≠ 0 ∧ s.x_ref % s.x_samples = 0 ∧
      s.x2_samples % s.x_samples = 0 := by
  unfold Subsampling.is_regular
  split_ifs with h1 h2 h3 h4 h5 <;> simp_all <;> omega

theorem subsampling_grouping :
    ∀ s : Subsampling,
      (¬(s.x_ref ≠ 0 ∧ s.x_samples = 0 ∧ s.x2_samples = 0) →
        ∃ b, s.is_regular = some b) ∧
      (s.is_regular = some true →
        s.x_grouping = some (s.x_ref / s.x_samples) ∧
        s.y_grouping = some (if s.x2_samples = 0 then 2 else 1)) := by
  intro s
  constructor
  · intro hne
    unfold Subsampling.is_regular
    split_ifs with h1 h2 h3 h4 h5 <;> simp_all <;> omega
  · intro hreg
    have hfacts := (Subsampling.is_regular_eq_some_true s).mp hreg
    have hx2 : s.x2_samples ≠ 0 → s.x_samples = s.x2_samples := by
      intro hne
      obtain ⟨-, -, hle, hs0, -, hmod⟩ := hfacts
      rcases Nat.lt_or_ge s.x2_samples s.x_samples with hlt | hge
      · rw [Nat.mod_eq_of_lt hlt] at hmod
        omega
      · omega
    constructor
    · unfold Subsampling.x_grouping
      rw [hreg]
    · unfold Subsampling.y_grouping
      rw [hreg]
      by_cases h0 : s.x2_samples = 0
      · simp [h0]
      · simp [h0, hx2 h0]

/-- Witness for `subsampling_grouping` at 4:2:0 (regular, groupings 2/2)
and 4:2:2 (regular, groupings 2/1). -/
theorem subsampling_grouping_witness :
    ((Subsampling.mk 4 2 0).x_grouping = some 2 ∧
      (Subsampling.mk 4 2 0).y_grouping = some 2) ∧
    ((Subsampling.mk 4 2 2).x_grouping = some 2 ∧
      (Subsampling.mk 4 2 2).y_grouping = some 1) :=
  ⟨((subsampling_grouping ⟨4, 2, 0⟩).2 (by rfl) : _),
   ((subsampling_grouping ⟨4, 2, 2⟩).2 (by rfl) : _)⟩

/-- Closed form of `buffer_info` on the four packed RGB/BGR formats. -/
theorem FourCCVideo.buffer_info_packed4 (cc : FourCCVideo)
    (h : cc = .RGBA ∨ cc = .RGBX ∨ cc = .BGRA ∨ cc = .BGRX)
    (r : Resolution) (fm : NDIFieldedFrameMode) :
    cc.buffer_info r fm = .ok {
      size := if fm.is_single_field then r.x * r.y * 4 / 2 else r.x * r.y * 4
      line_stride := r.x * 4
      resolution := r
      field_mode := fm
      subsampling := Subsampling.none } := by
  rcases h with rfl | rfl | rfl | rfl <;> cases fm <;> rfl

/-- Closed form of `buffer_info` on UYVY. -/
theorem FourCCVideo.buffer_info_uyvy (r : Resolution)
    (fm : NDIFieldedFrameMode) :
    FourCCVideo.UYVY.buffer_info r fm = .ok {
      size := if fm.is_single_field then r.x * r.y * 2 / 2 else r.x * r.y * 2
      line_stride := r.x * 2
      resolution := r
      field_mode := fm
      subsampling := Subsampling.new 4 2 2 } := by
  cases fm <;> rfl

/-- `buffer_info` on the formats without a defined layout. -/
theorem FourCCVideo.buffer_info_unsupported (cc : FourCCVideo)
    (h : cc = .UYVA ∨ cc = .P216 ∨ cc = .PA16 ∨ cc = .YV12 ∨ cc = .I420 ∨
      cc = .NV12)
    (r : Resolution) (fm : NDIFieldedFrameMode) :
    cc.buffer_info r fm = .error (.UnsupportedFourCC cc) := by
  rcases h with rfl | rfl | rfl | rfl | rfl | rfl <;> rfl

/-- C2: for every resolution and field mode, `buffer_info` on the packed
RGB formats returns `Ok` with `line_stride = width·4` and (progressive)
`size = width·height·4`; on UYVY with `line_stride = width·2` and
(progressive) `size = width·height·2`; a single-field mode yields exactly
half of the progressive size for the same resolution and format; every
other defined video FourCC gets `UnsupportedFourCC`; and a video frame
whose descriptor holds no recognized format yields `UnspecifiedFourCC`. -/
theorem buffer_info_layout :
    ∀ (r : Resolution) (fm : NDIFieldedFrameMode),
      (∀ cc : FourCCVideo,
        cc = .RGBA ∨ cc = .RGBX ∨ cc = .BGRA ∨ cc = .BGRX →
        ∃ info, cc.buffer_info r fm = .ok info ∧
          info.line_stride = r.x * 4 ∧
          (fm.is_single_field = false → info.size = r.x * r.y * 4) ∧
          (fm.is_single_field = true → 2 * info.size = r.x * r.y * 4)) ∧
      (∃ info, FourCCVideo.UYVY.buffer_info r fm = .ok info ∧
        info.line_stride = r.x * 2 ∧
        (fm.is_single_field = false → info.size = r.x * r.y * 2) ∧
        (fm.is_single_field = true → 2 * info.size = r.x * r.y * 2)) ∧
      (∀ cc : FourCCVideo,
        cc = .UYVA ∨ cc = .P216 ∨ cc = .PA16 ∨ cc = .YV12 ∨ cc = .I420 ∨
          cc = .NV12 →
        cc.buffer_info r fm = .error (.UnsupportedFourCC cc)) ∧
      (∀ (cc : FourCCVideo) (info infoP : BufferInfo),
        fm.is_single_field = true →
        cc.buffer_info r fm = .ok info →
        cc.buffer_info r .Progressive = .ok infoP →
        2 * info.size = infoP.size) ∧
      (∀ f : VideoFrame, f.four_cc = Option.none →
        f.buffer_info = some (.error .UnspecifiedFourCC)) := by
  intro r fm
  refine ⟨?_, ?_, ?_, ?_, ?_⟩
  · intro cc hcc
    cases fm <;>
      refine ⟨_, FourCCVideo.buffer_info_packed4 cc hcc r _, rfl, ?_, ?_⟩ <;>
        intro h <;>
        simp [NDIFieldedFrameMode.is_single_field] at h ⊢ <;> omega
  · cases fm <;>
      refine ⟨_, FourCCVideo.buffer_info_uyvy r _, rfl, ?_, ?_⟩ <;>
        intro h <;>
        simp [NDIFieldedFrameMode.is_single_field] at h ⊢ <;> omega
  · intro cc hcc
    exact FourCCVideo.buffer_info_unsupported cc hcc r fm
  · intro cc info infoP hfm h1 h2
    have hsup : (cc = .RGBA ∨ cc = .RGBX ∨ cc = .BGRA ∨ cc = .BGRX) ∨
        cc = .UYVY ∨
        (cc = .UYVA ∨ cc = .P216 ∨ cc = .PA16 ∨ cc = .YV12 ∨ cc = .I420 ∨
          cc = .NV12) := by
      cases cc <;> simp
    rcases hsup with h4 | rfl | h6
    · rw [FourCCVideo.buffer_info_packed4 cc h4] at h1 h2
      injection h1 with h1
      injection h2 with h2
      subst h1
      subst h2
      rw [hfm]
      simp [NDIFieldedFrameMode.is_single_field]
      omega
    · rw [FourCCVideo.buffer_info_uyvy] at h1 h2
      injection h1 with h1
      injection h2 with h2
      subst h1
      subst h2
      rw [hfm]
      simp [NDIFieldedFrameMode.is_single_field]
      omega
    · rw [FourCCVideo.buffer_info_unsupported cc h6] at h1
      exact Except.noConfusion h1
  · intro f hf
    simp [VideoFrame.buffer_info, hf]

/-- Witness for `buffer_info_layout`: the 1920x1080 RGBX progressive
scenario (`size = 1920·1080·4`, `line_stride = 1920·4`) and the
unsupported UYVA case. -/
theorem buffer_info_layout_witness :
    (∃ info, FourCCVideo.RGBX.buffer_info ⟨1920, 1080⟩ .Progressive = .ok info ∧
      info.line_stride = 1920 * 4 ∧
      (NDIFieldedFrameMode.Progressive.is_single_field = false →
        info.size = 1920 * 1080 * 4) ∧
      (NDIFieldedFrameMode.Progressive.is_single_field = true →
        2 * info.size = 1920 * 1080 * 4)) ∧
    FourCCVideo.UYVA.buffer_info ⟨1920, 1080⟩ .Progressive =
      .error (.UnsupportedFourCC .UYVA) :=
  ⟨(buffer_info_layout ⟨1920, 1080⟩ .Progressive).1 .RGBX (Or.inr (Or.inl rfl)),
   (buffer_info_layout ⟨1920, 1080⟩ .Progressive).2.2.1 .UYVA (Or.inl rfl)⟩

/-- Inversion of a successful `try_alloc`: the frame was unallocated, the
layout computation succeeded, and the result installs the boxed buffer. -/
theorem VideoFrame.try_alloc_ok (f f' : VideoFrame)
    (h : f.try_alloc = some (.ok (), f')) :
    ∃ info, f.buffer_info = some (.ok info) ∧ f.is_allocated = false ∧
      f' = { f with
        alloc := FrameDataDropGuard.Box (List.replicate info.size 0)
        raw := { f.raw with
          p_data := Ptr.addr 0
          line_stride_in_bytes := Resolution.usizeToI32 info.line_stride } } := by
  unfold VideoFrame.try_alloc at h
  split_ifs at h with halloc
  · simp at h
  · cases hbi : f.buffer_info with
    | none => rw [hbi] at h; cases h
    | some res =>
      rw [hbi] at h
      cases res with
      | error e => simp at h
      | ok info =>
        refine ⟨info, rfl, by simpa using halloc, ?_⟩
        simp only [FrameDataDropGuard.new_boxed] at h
        simp at h
        exact h.symm

/-- C1: a frame constructed empty is FFI-writable and not readable; after a
successful local allocation it is mutable, readable and not writable; after
a release (`dealloc`) the backing memory is gone and it is writable again; a
locally-allocated frame can always be released; and a second allocation
without an intervening release returns `AlreadyAllocated` with the frame
unchanged, rather than panicking. -/
theorem frame_guard_lifecycle :
    (VideoFrame.new.alloc = FrameDataDropGuard.NullPtr ∧
      VideoFrame.new.is_ffi_writable = true ∧
      VideoFrame.new.is_ffi_readable = false) ∧
    (∀ f f' : VideoFrame, f.try_alloc = some (.ok (), f') →
      f'.alloc.is_mut = true ∧ f'.is_ffi_readable = true ∧
      f'.is_ffi_writable = false) ∧
    (∀ f f' : VideoFrame, f.dealloc = some f' →
      f'.alloc = FrameDataDropGuard.NullPtr ∧ f'.is_ffi_writable = true ∧
      f'.is_allocated = false) ∧
    (∀ f : VideoFrame, f.alloc.is_mut = true →
      f.dealloc = some { f with
        alloc := FrameDataDropGuard.NullPtr
        raw := { f.raw with
          p_data := Ptr.null
          line_stride_in_bytes := -1 } }) ∧
    (∀ f f' : VideoFrame, f.try_alloc = some (.ok (), f') →
      f'.try_alloc = some (.error .AlreadyAllocated, f')) := by
  refine ⟨⟨rfl, rfl, rfl⟩, ?_, ?_, ?_, ?_⟩
  · intro f f' h
    obtain ⟨info, -, -, rfl⟩ := VideoFrame.try_alloc_ok f f' h
    exact ⟨rfl, rfl, rfl⟩
  · intro f f' h
    unfold VideoFrame.dealloc VideoFrame.drop_buffer at h
    rcases halloc : f.alloc with _ | o | o | d | s <;> rw [halloc] at h
    · simp at h
      rw [← h]
      exact ⟨rfl, rfl, rfl⟩
    · simp at h
      rw [← h]
      exact ⟨rfl, rfl, rfl⟩
    · cases o with
      | none =>
        simp at h
        rw [← h]
        exact ⟨rfl, rfl, rfl⟩
      | some sid => cases h
    · simp at h
      rw [← h]
      exact ⟨rfl, rfl, rfl⟩
    · simp at h
      rw [← h]
      exact ⟨rfl, rfl, rfl⟩
  · intro f hmut
    unfold VideoFrame.dealloc VideoFrame.drop_buffer
    rcases halloc : f.alloc with _ | o | o | d | s
    · rw [halloc] at hmut
      exact Bool.noConfusion hmut
    · rw [halloc] at hmut
      exact Bool.noConfusion hmut
    · rw [halloc] at hmut
      exact Bool.noConfusion hmut
    · rfl
    · rfl
  · intro f f' h
    obtain ⟨info, -, -, rfl⟩ := VideoFrame.try_alloc_ok f f' h
    rfl

/-- Witness for `frame_guard_lifecycle` on the concrete 2x2 RGBX frame:
allocation, double-allocation error and release. -/
theorem frame_guard_lifecycle_witness :
    (demoAllocated.alloc.is_mut = true ∧ demoAllocated.is_ffi_readable = true ∧
      demoAllocated.is_ffi_writable = false) ∧
    (demoDeallocated.alloc = FrameDataDropGuard.NullPtr ∧
      demoDeallocated.is_ffi_writable = true ∧
      demoDeallocated.is_allocated = false) ∧
    demoAllocated.try_alloc = some (.error .AlreadyAllocated, demoAllocated) :=
  ⟨frame_guard_lifecycle.2.1 demoEmpty demoAllocated rfl,
   frame_guard_lifecycle.2.2.1 demoAllocated demoDeallocated rfl,
   frame_guard_lifecycle.2.2.2.2 demoEmpty demoAllocated rfl⟩

/-- C10: whenever `try_alloc` returns an error — `AlreadyAllocated` or a
`BufferInfoError` — the frame is returned completely unchanged: guard,
pointers, stride and every descriptor field. -/
theorem try_alloc_atomic_on_error :
    ∀ (f : VideoFrame) (e : VideoFrameAllocationError) (f' : VideoFrame),
      f.try_alloc = some (.error e, f') → f' = f := by
  intro f e f' h
  unfold VideoFrame.try_alloc at h
  split_ifs at h with halloc
  · simp at h
    exact h.2.symm
  · cases hbi : f.buffer_info with
    | none => rw [hbi] at h; cases h
    | some res =>
      rw [hbi] at h
      cases res with
      | error err =>
        simp at h
        exact h.2.symm
      | ok info =>
        simp [FrameDataDropGuard.new_boxed] at h

/-- Witness for `try_alloc_atomic_on_error`: the already-allocated frame
and the unsupported-format frame are both returned unchanged. -/
theorem try_alloc_atomic_on_error_witness :
    (demoAllocated.try_alloc =
        some (.error .AlreadyAllocated, demoAllocated) ∧
      demoAllocated = demoAllocated) ∧
    (demoUYVA.try_alloc =
        some (.error (.BufferInfoError (.UnsupportedFourCC .UYVA)), demoUYVA) ∧
      demoUYVA = demoUYVA) :=
  ⟨⟨rfl, try_alloc_atomic_on_error demoAllocated .AlreadyAllocated
      demoAllocated rfl⟩,
   ⟨rfl, try_alloc_atomic_on_error demoUYVA
      (.BufferInfoError (.UnsupportedFourCC .UYVA)) demoUYVA rfl⟩⟩

/-- C5 counterexample: a freshly constructed frame stores the resolution
0x0; `buffer_info` and `try_alloc` on it hit the `is_safe` assert inside
`Resolution::from_i32` and panic (`Option.none`) instead of returning a
typed format/geometry error, contradicting the claim that zero-resolution
geometry errors are recoverable. -/
theorem zero_resolution_layout_panics :
    VideoFrame.new.raw.xres = 0 ∧ VideoFrame.new.raw.yres = 0 ∧
    VideoFrame.new.buffer_info = Option.none ∧
    VideoFrame.new.try_alloc = Option.none :=
  ⟨rfl, rfl, rfl, rfl⟩

/-- C5 (amended): format errors are returned as typed recoverable errors —
an unrecognized FourCC yields `UnspecifiedFourCC` from `buffer_info` and
`try_alloc`, and data access on an unallocated frame yields `NotAllocated` —
but a stored resolution that is zero, odd-width or out of the safe bound
makes `buffer_info` and `try_alloc` panic in `Resolution::from_i32` rather
than return an error. -/
theorem geometry_error_handling :
    ∀ f : VideoFrame,
      (f.four_cc = Option.none →
        f.buffer_info = some (.error .UnspecifiedFourCC) ∧
        (f.is_allocated = false →
          f.try_alloc =
            some (.error (.BufferInfoError .UnspecifiedFourCC), f))) ∧
      (∀ cc, f.four_cc = some cc → f.resolution = Option.none →
        f.buffer_info = Option.none ∧
        (f.is_allocated = false → f.try_alloc = Option.none)) ∧
      (f.is_allocated = false → f.video_data = some (.error .NotAllocated)) := by
  intro f
  refine ⟨?_, ?_, ?_⟩
  · intro hcc
    have hbi : f.buffer_info = some (.error .UnspecifiedFourCC) := by
      unfold VideoFrame.buffer_info
      rw [hcc]
    refine ⟨hbi, ?_⟩
    intro halloc
    unfold VideoFrame.try_alloc
    rw [hbi]
    simp [halloc]
  · intro cc hcc hres
    have hbi : f.buffer_info = Option.none := by
      unfold VideoFrame.buffer_info
      rw [hcc, hres]
    refine ⟨hbi, ?_⟩
    intro halloc
    unfold VideoFrame.try_alloc
    rw [hbi]
    simp [halloc]
  · intro halloc
    unfold VideoFrame.video_data
    simp [halloc]

/-- Witness for `geometry_error_handling`: the unrecognized-code frame gets
the typed `UnspecifiedFourCC` error, the fresh 0x0 frame panics, and the
unallocated frame gets the typed `NotAllocated` access error. -/
theorem geometry_error_handling_witness :
    (demoNoFourCC.buffer_info = some (.error .UnspecifiedFourCC) ∧
      (demoNoFourCC.is_allocated = false →
        demoNoFourCC.try_alloc =
          some (.error (.BufferInfoError .UnspecifiedFourCC), demoNoFourCC))) ∧
    (VideoFrame.new.buffer_info = Option.none ∧
      (VideoFrame.new.is_allocated = false →
        VideoFrame.new.try_alloc = Option.none)) ∧
    demoEmpty.video_data = some (.error .NotAllocated) :=
  ⟨(geometry_error_handling demoNoFourCC).1 rfl,
   (geometry_error_handling VideoFrame.new).2.1 .UYVY rfl rfl,
   (geometry_error_handling demoEmpty).2.2 rfl⟩

/-- Inversion of the strict-mode pointer conversion: when it does not panic
it hands back the slot unchanged, and a provided slot is FFI-writable. -/
theorem NDIReceiver.to_ffi_recv_frame_ptr_some
    (slot s : Option FrameDataDropGuard)
    (h : NDIReceiver.to_ffi_recv_frame_ptr slot = some s) :
    s = slot ∧ ∀ g, slot = some g → g.is_ffi_writable = true := by
  cases slot with
  | none =>
    cases h
    exact ⟨rfl, fun g hg => by cases hg⟩
  | some g =>
    simp only [NDIReceiver.to_ffi_recv_frame_ptr] at h
    split_ifs at h with hw
    cases h
    exact ⟨rfl, fun g' hg' => by cases hg'; exact hw⟩

/-- A passing unwritten-assert means every provided slot is still
FFI-writable (Empty). -/
theorem NDIReceiver.slot_unwritten_writable
    (slot : Option FrameDataDropGuard) (w : Bool)
    (h : NDIReceiver.slot_unwritten slot w = true) :
    ∀ g, slot = some g → g.is_ffi_writable = true := by
  intro g hg
  subst hg
  simp only [NDIReceiver.slot_unwritten, Bool.and_eq_true, Bool.not_eq_true]
    at h
  exact h.2

/-- C3: in strict/debug mode, when the native discriminant reports Video,
Audio or Metadata and `recv` returns normally, exactly the corresponding
slot has transitioned to receiver-owned state, the other provided slots are
returned unchanged and are still Empty (FFI-writable, asserted); and a
discriminant naming a frame kind whose slot was not provided (audio
reported, no audio slot) panics instead of returning. -/
theorem recv_slot_discipline :
    ∀ (hid : Nat) (video audio meta : Option FrameDataDropGuard)
      (vW aW mW : Bool) (out : NDIReceiver.RecvOutcome),
      (NDIReceiver.recv hid video audio meta .video vW aW mW = some out →
        out.result = .ok .Video ∧
        out.video = some (FrameDataDropGuard.Receiver (some hid)) ∧
        out.audio = audio ∧ out.meta = meta ∧
        (∀ g, audio = some g → g.is_ffi_writable = true) ∧
        (∀ g, meta = some g → g.is_ffi_writable = true)) ∧
      (NDIReceiver.recv hid video audio meta .audio vW aW mW = some out →
        out.result = .ok .Audio ∧
        out.audio = some (FrameDataDropGuard.Receiver (some hid)) ∧
        out.video = video ∧ out.meta = meta ∧
        (∀ g, video = some g → g.is_ffi_writable = true) ∧
        (∀ g, meta = some g → g.is_ffi_writable = true)) ∧
      (NDIReceiver.recv hid video audio meta .metadata vW aW mW = some out →
        out.result = .ok .Metadata ∧
        out.meta = some (FrameDataDropGuard.Receiver (some hid)) ∧
        out.video = video ∧ out.audio = audio ∧
        (∀ g, video = some g → g.is_ffi_writable = true) ∧
        (∀ g, audio = some g → g.is_ffi_writable = true)) ∧
      (NDIReceiver.recv hid video Option.none meta .audio vW aW mW =
        Option.none) := by
  intro hid video audio meta vW aW mW out
  refine ⟨?_, ?_, ?_, ?_⟩
  · intro h
    unfold NDIReceiver.recv at h
    cases hv : NDIReceiver.to_ffi_recv_frame_ptr video with
    | none => simp only [hv] at h; cases h
    | some v' =>
    cases ha : NDIReceiver.to_ffi_recv_frame_ptr audio with
    | none => simp only [hv, ha] at h; cases h
    | some a' =>
    cases hm : NDIReceiver.to_ffi_recv_frame_ptr meta with
    | none => simp only [hv, ha, hm] at h; cases h
    | some m' =>
    simp only [hv, ha, hm] at h
    obtain ⟨hv1, -⟩ := NDIReceiver.to_ffi_recv_frame_ptr_some video v' hv
    obtain ⟨ha1, -⟩ := NDIReceiver.to_ffi_recv_frame_ptr_some audio a' ha
    obtain ⟨hm1, -⟩ := NDIReceiver.to_ffi_recv_frame_ptr_some meta m' hm
    subst hv1
    subst ha1
    subst hm1
    cases v' with
    | none => simp at h
    | some g =>
      simp only [] at h
      split_ifs at h with hcond
      cases h
      simp only [Bool.and_eq_true] at hcond
      exact ⟨rfl, rfl, rfl, rfl,
        NDIReceiver.slot_unwritten_writable a' aW hcond.1,
        NDIReceiver.slot_unwritten_writable m' mW hcond.2⟩
  · intro h
    unfold NDIReceiver.recv at h
    cases hv : NDIReceiver.to_ffi_recv_frame_ptr video with
    | none => simp only [hv] at h; cases h
    | some v' =>
    cases ha : NDIReceiver.to_ffi_recv_frame_ptr audio with
    | none => simp only [hv, ha] at h; cases h
    | some a' =>
    cases hm : NDIReceiver.to_ffi_recv_frame_ptr meta with
    | none => simp only [hv, ha, hm] at h; cases h
    | some m' =>
    simp only [hv, ha, hm] at h
    obtain ⟨hv1, -⟩ := NDIReceiver.to_ffi_recv_frame_ptr_some video v' hv
    obtain ⟨ha1, -⟩ := NDIReceiver.to_ffi_recv_frame_ptr_some audio a' ha
    obtain ⟨hm1, -⟩ := NDIReceiver.to_ffi_recv_frame_ptr_some meta m' hm
    subst hv1
    subst ha1
    subst hm1
    cases a' with
    | none => simp at h
    | some g =>
      simp only [] at h
      split_ifs at h with hcond
      cases h
      simp only [Bool.and_eq_true] at hcond
      exact ⟨rfl, rfl, rfl, rfl,
        NDIReceiver.slot_unwritten_writable v' vW hcond.1,
        NDIReceiver.slot_unwritten_writable m' mW hcond.2⟩
  · intro h
    unfold NDIReceiver.recv at h
    cases hv : NDIReceiver.to_ffi_recv_frame_ptr video with
    | none => simp only [hv] at h; cases h
    | some v' =>
    cases ha : NDIReceiver.to_ffi_recv_frame_ptr audio with
    | none => simp only [hv, ha] at h; cases h
    | some a' =>
    cases hm : NDIReceiver.to_ffi_recv_frame_ptr meta with
    | none => simp only [hv, ha, hm] at h; cases h
    | some m' =>
    simp only [hv, ha, hm] at h
    obtain ⟨hv1, -⟩ := NDIReceiver.to_ffi_recv_frame_ptr_some video v' hv
    obtain ⟨ha1, -⟩ := NDIReceiver.to_ffi_recv_frame_ptr_some audio a' ha
    obtain ⟨hm1, -⟩ := NDIReceiver.to_ffi_recv_frame_ptr_some meta m' hm
    subst hv1
    subst ha1
    subst hm1
    cases m' with
    | none => simp at h
    | some g =>
      simp only [] at h
      split_ifs at h with hcond
      cases h
      simp only [Bool.and_eq_true] at hcond
      exact ⟨rfl, rfl, rfl, rfl,
        NDIReceiver.slot_unwritten_writable v' vW hcond.1,
        NDIReceiver.slot_unwritten_writable a' aW hcond.2⟩
  · unfold NDIReceiver.recv
    cases hv : NDIReceiver.to_ffi_recv_frame_ptr video with
    | none => simp [hv]
    | some v' =>
      cases hm : NDIReceiver.to_ffi_recv_frame_ptr meta with
      | none => simp [hv, hm, NDIReceiver.to_ffi_recv_frame_ptr]
      | some m' => simp [hv, hm, NDIReceiver.to_ffi_recv_frame_ptr]

/-- Witness for `recv_slot_discipline`: three Empty slots with the native
layer reporting video, plus the concrete panic when audio is reported while
no audio slot was provided. -/
theorem recv_slot_discipline_witness :
    (NDIReceiver.RecvOutcome.mk (.ok .Video)
        (some (FrameDataDropGuard.Receiver (some 0)))
        (some FrameDataDropGuard.NullPtr)
        (some FrameDataDropGuard.NullPtr)).result = .ok .Video ∧
    (NDIReceiver.RecvOutcome.mk (.ok .Video)
        (some (FrameDataDropGuard.Receiver (some 0)))
        (some FrameDataDropGuard.NullPtr)
        (some FrameDataDropGuard.NullPtr)).video =
      some (FrameDataDropGuard.Receiver (some 0)) ∧
    NDIReceiver.recv 0 (some FrameDataDropGuard.NullPtr) Option.none
      (some FrameDataDropGuard.NullPtr) .audio false false false =
      Option.none := by
  have h := recv_slot_discipline 0 (some FrameDataDropGuard.NullPtr)
    (some FrameDataDropGuard.NullPtr) (some FrameDataDropGuard.NullPtr)
    false false false
    (NDIReceiver.RecvOutcome.mk (.ok .Video)
      (some (FrameDataDropGuard.Receiver (some 0)))
      (some FrameDataDropGuard.NullPtr) (some FrameDataDropGuard.NullPtr))
  obtain ⟨h1, h2, -, -, -, -⟩ := h.1 rfl
  exact ⟨h1, h2,
    (recv_slot_discipline 0 (some FrameDataDropGuard.NullPtr) Option.none
      (some FrameDataDropGuard.NullPtr) false false false
      (NDIReceiver.RecvOutcome.mk (.ok .Video) Option.none Option.none
        Option.none)).2.2.2⟩

/-- C7: after `send_video_async(A)` the sender tracks A; a second
`send_video_async(B)` first issues the native async call for B and only then
releases the tracked reference to A (the event list is ordered: native call,
then release), so A's memory is still alive when the second call is issued;
`flush_async_video` clears the tracked reference (releasing it only after
the native flush call), a sync send clears it, and dropping the sender
performs exactly the flush. -/
theorem async_send_tracking :
    ∀ (s : NDISender) (idA idB : Nat) (aA aB : FrameDataDropGuard)
      (s1 s2 : NDISender) (ev1 ev2 : List SenderEvent),
      (s.send_video_async idA aA = .ok (s1, ev1) →
        s1.send_video_async idB aB = .ok (s2, ev2) →
        s1.in_transmission = some idA ∧ s2.in_transmission = some idB ∧
        ev2 = [SenderEvent.nativeSendAsyncVideo (some idB),
               SenderEvent.releaseRef idA]) ∧
      ((s.flush_async_video).1.in_transmission = Option.none ∧
        (s.flush_async_video).2 =
          SenderEvent.nativeSendAsyncVideo Option.none ::
            (match s.in_transmission with
             | some old => [SenderEvent.releaseRef old]
             | Option.none => [])) ∧
      (∀ sid alloc s' ev, s.send_video_sync sid alloc = .ok (s', ev) →
        s'.in_transmission = Option.none ∧
        ev = SenderEvent.nativeSendSyncVideo sid ::
          (match s.in_transmission with
           | some old => [SenderEvent.releaseRef old]
           | Option.none => [])) ∧
      s.drop_sender = s.flush_async_video := by
  intro s idA idB aA aB s1 s2 ev1 ev2
  refine ⟨?_, ⟨rfl, rfl⟩, ?_, rfl⟩
  · intro h1 h2
    unfold NDISender.send_video_async NDISender.write_in_transmission at h1 h2
    split_ifs at h1 with hr1
    · simp only [Except.ok.injEq, Prod.mk.injEq] at h1
      obtain ⟨hs1, -⟩ := h1
      subst hs1
      split_ifs at h2 with hr2
      · simp only [Except.ok.injEq, Prod.mk.injEq] at h2
        obtain ⟨hs2, hev2⟩ := h2
        subst hs2
        exact ⟨rfl, rfl, hev2.symm⟩
  · intro sid alloc s' ev h
    unfold NDISender.send_video_sync NDISender.write_in_transmission at h
    split_ifs at h with hr
    simp only [Except.ok.injEq, Prod.mk.injEq] at h
    obtain ⟨hs, hev⟩ := h
    subst hs
    exact ⟨rfl, hev.symm⟩

/-- Witness for `async_send_tracking`: two consecutive async sends of the
frames 1 and 2; the trace of the second call is the native call for 2
followed by the release of 1. -/
theorem async_send_tracking_witness :
    (NDISender.mk (some 1)).in_transmission = some 1 ∧
    (NDISender.mk (some 2)).in_transmission = some 2 ∧
    [SenderEvent.nativeSendAsyncVideo (some 2), SenderEvent.releaseRef 1] =
      [SenderEvent.nativeSendAsyncVideo (some 2),
       SenderEvent.releaseRef 1] :=
  (async_send_tracking ⟨Option.none⟩ 1 2
      (FrameDataDropGuard.Box [0]) (FrameDataDropGuard.Box [0])
      ⟨some 1⟩ ⟨some 2⟩
      [SenderEvent.nativeSendAsyncVideo (some 1)]
      [SenderEvent.nativeSendAsyncVideo (some 2),
       SenderEvent.releaseRef 1]).1 rfl rfl
